import Mathlib

/-!
Shallow embedding of the request-orchestration and response-interpretation
core of ask_gemini.py (jmrodev/askInstaller), together with proofs of the
behavioural claims about it.

The script manipulates JSON dictionaries throughout, so the embedding is
built over an explicit JSON value type with Python dictionary/list access
semantics (dict.get, membership, truthiness, indexing) made explicit, and
Python exceptions modelled by an error monad.
-/

/-- JSON values as manipulated by the script.  Python floats that occur in
JSON are represented in decimal form as a mantissa and a power-of-ten
exponent (the script only ever passes them through unchanged). -/
inductive JValue where
  | null : JValue
  | bool (b : Bool) : JValue
  | int (n : Int) : JValue
  | flt (m : Int) (e : Int) : JValue
  | str (s : String) : JValue
  | arr (xs : List JValue) : JValue
  | obj (fields : List (String × JValue)) : JValue

/-- Python exceptions that the embedded code can raise. -/
inductive PyErr where
  | apiError (msg : String) : PyErr
  | nameErr (name : String) : PyErr
  | typeErr (msg : String) : PyErr
  | keyErr (key : String) : PyErr
  | indexErr (msg : String) : PyErr
  | valueErr (msg : String) : PyErr
  | attributeErr (msg : String) : PyErr
  | fileNotFoundErr (path : String) : PyErr
deriving DecidableEq, Repr

mutual

/-- Boolean equality on JSON values. -/
def JValue.beq : JValue → JValue → Bool
  | .null, .null => true
  | .bool a, .bool b => a == b
  | .int a, .int b => a == b
  | .flt m₁ e₁, .flt m₂ e₂ => m₁ == m₂ && e₁ == e₂
  | .str a, .str b => a == b
  | .arr xs, .arr ys => JValue.beqList xs ys
  | .obj fs, .obj gs => JValue.beqFields fs gs
  | _, _ => false

def JValue.beqList : List JValue → List JValue → Bool
  | [], [] => true
  | x :: xs, y :: ys => JValue.beq x y && JValue.beqList xs ys
  | _, _ => false

def JValue.beqFields : List (String × JValue) → List (String × JValue) → Bool
  | [], [] => true
  | (k₁, v₁) :: fs, (k₂, v₂) :: gs =>
      k₁ == k₂ && JValue.beq v₁ v₂ && JValue.beqFields fs gs
  | _, _ => false

end

instance : BEq JValue := ⟨JValue.beq⟩

/-- Whether the first list is a prefix of the second. -/
def charsPrefix : List Char → List Char → Bool
  | [], _ => true
  | _ :: _, [] => false
  | a :: as, b :: bs => a == b && charsPrefix as bs

/-- Whether the first list occurs as a contiguous run inside the second. -/
def charsInfix (needle : List Char) : List Char → Bool
  | [] => charsPrefix needle []
  | c :: cs => charsPrefix needle (c :: cs) || charsInfix needle cs

/-- Substring test, modelling the Python expression needle in hay on
strings. -/
def strContains (hay needle : String) : Bool :=
  charsInfix needle.toList hay.toList

namespace JValue

/-- Python truthiness of a JSON value: None, False, 0, empty string, empty
list and empty dict are falsy. -/
def truthy : JValue → Bool
  | null => false
  | bool b => b
  | int n => n != 0
  | flt m _ => m != 0
  | str s => s ≠ ""
  | arr xs => !xs.isEmpty
  | obj fs => !fs.isEmpty

/-- Truthiness of an optional value (Python None is falsy). -/
def otruthy : Option JValue → Bool
  | none => false
  | some v => v.truthy

/-- Python dict lookup: last binding of a key wins (as in a dict built by
successive insertion). -/
def lookupLast (k : String) : List (String × JValue) → Option JValue
  | [] => none
  | (k₁, v₁) :: rest =>
    match lookupLast k rest with
    | some v => some v
    | none => if k₁ = k then some v₁ else none

/-- Python dict.get(key): None when the key is absent; AttributeError when
the receiver is not a dict (e.g. 5 .get(...)). -/
def get (v : JValue) (k : String) : Except PyErr (Option JValue) :=
  match v with
  | obj fs => .ok (lookupLast k fs)
  | _ => .error (.attributeErr ("object has no attribute " ++ "\x27get\x27"))

/-- Python membership test key in value: key lookup for dicts, substring
test for strings, element test for lists, TypeError otherwise. -/
def mem (k : String) (v : JValue) : Except PyErr Bool :=
  match v with
  | obj fs => .ok (lookupLast k fs).isSome
  | str s => .ok (strContains s k)
  | arr xs => .ok (xs.contains (str k))
  | _ => .error (.typeErr "argument of type is not iterable")

/-- Python subscript value[key] with a string key: KeyError when absent,
TypeError when the receiver is not a dict. -/
def index (v : JValue) (k : String) : Except PyErr JValue :=
  match v with
  | obj fs =>
    match lookupLast k fs with
    | some w => .ok w
    | none => .error (.keyErr k)
  | _ => .error (.typeErr "indices must be integers")

/-- Python iteration over a value: list elements, string characters, dict
keys; TypeError otherwise. -/
def pyIter (v : JValue) : Except PyErr (List JValue) :=
  match v with
  | arr xs => .ok xs
  | str s => .ok (s.toList.map (fun c => str (String.singleton c)))
  | obj fs => .ok (fs.map (fun p => str p.1))
  | _ => .error (.typeErr "object is not iterable")

/-- isinstance(v, list). -/
def isList : JValue → Bool
  | arr _ => true
  | _ => false

end JValue

/-- Escape one character for a JSON string literal (json.dumps with the
default ensure_ascii handling of the characters the script produces). -/
def jsonEscapeChar (c : Char) : String :=
  if c = '"' then "\\\""
  else if c = '\\' then "\\\\"
  else if c = '\n' then "\\n"
  else if c = '\t' then "\\t"
  else if c = '\r' then "\\r"
  else String.singleton c

/-- Escape a string for a JSON string literal. -/
def jsonEscape (s : String) : String :=
  String.join (s.toList.map jsonEscapeChar)

/-- Decimal rendering of a mantissa/exponent float, matching the repr that
json.dumps gives the decimal literals the script passes through
(e.g. mantissa 8, exponent -1 renders as 0.8). -/
def fltRepr (m : Int) (e : Int) : String :=
  if e ≥ 0 then
    toString m ++ String.join (List.replicate e.toNat "0") ++ ".0"
  else
    let sign := if m < 0 then "-" else ""
    let digits := toString m.natAbs
    let k := (-e).toNat
    if digits.length > k then
      sign ++ (digits.take (digits.length - k)) ++ "." ++ (digits.drop (digits.length - k))
    else
      sign ++ "0." ++ String.join (List.replicate (k - digits.length) "0") ++ digits

mutual

/-- json.dumps with the default separators (", " between items, ": " after
keys), as used in the script's error messages. -/
def json_dumps : JValue → String
  | .null => "null"
  | .bool true => "true"
  | .bool false => "false"
  | .int n => toString n
  | .flt m e => fltRepr m e
  | .str s => "\"" ++ jsonEscape s ++ "\""
  | .arr xs => "[" ++ json_dumps_list xs ++ "]"
  | .obj fs => "\x7b" ++ json_dumps_fields fs ++ "\x7d"

def json_dumps_list : List JValue → String
  | [] => ""
  | [x] => json_dumps x
  | x :: rest => json_dumps x ++ ", " ++ json_dumps_list rest

def json_dumps_fields : List (String × JValue) → String
  | [] => ""
  | [(k, v)] => "\"" ++ jsonEscape k ++ "\": " ++ json_dumps v
  | (k, v) :: rest =>
      "\"" ++ jsonEscape k ++ "\": " ++ json_dumps v ++ ", " ++ json_dumps_fields rest

end

-- ===== Python auxiliary semantics =====

mutual

/-- Python str() / f-string rendering of a value (repr for containers). -/
def pyStr : JValue → String
  | .str s => s
  | .int n => toString n
  | .flt m e => fltRepr m e
  | .bool true => "True"
  | .bool false => "False"
  | .null => "None"
  | .arr xs => "[" ++ pyReprList xs ++ "]"
  | .obj fs => "\x7b" ++ pyReprFields fs ++ "\x7d"

def pyRepr : JValue → String
  | .str s => "'" ++ s ++ "'"
  | v => pyStr v

def pyReprList : List JValue → String
  | [] => ""
  | [x] => pyRepr x
  | x :: rest => pyRepr x ++ ", " ++ pyReprList rest

def pyReprFields : List (String × JValue) → String
  | [] => ""
  | [(k, v)] => "'" ++ k ++ "': " ++ pyRepr v
  | (k, v) :: rest => "'" ++ k ++ "': " ++ pyRepr v ++ ", " ++ pyReprFields rest

end

/-- Python whitespace characters recognized by str.strip(). -/
def pyIsSpace (c : Char) : Bool :=
  c == ' ' || c == '\t' || c == '\n' || c == '\r' || c == Char.ofNat 11 || c == Char.ofNat 12

/-- Python str.strip() with no arguments. -/
def pyStrip (s : String) : String :=
  String.mk (((s.toList.dropWhile pyIsSpace).reverse.dropWhile pyIsSpace).reverse)

/-- Python str.split() with no arguments: split on whitespace runs,
discarding empty pieces. -/
def pySplitWs (s : String) : List String :=
  (s.split (fun c => pyIsSpace c)).filter (fun w => w ≠ "")

/-- Strip a given character from both ends of a string (str.strip(c)). -/
def pyStripChar (c : Char) (s : String) : String :=
  String.mk (((s.toList.dropWhile (· == c)).reverse.dropWhile (· == c)).reverse)

/-- Python str.startswith. -/
def pyStartsWith (s pre : String) : Bool :=
  charsPrefix pre.toList s.toList

/-- Split a character list at every occurrence of a separator. -/
def splitChars (c : Char) : List Char → List (List Char)
  | [] => [[]]
  | d :: rest =>
    let r := splitChars c rest
    if d = c then [] :: r
    else
      match r with
      | h :: t => (d :: h) :: t
      | [] => [[d]]

/-- Python str.split(sep) with a one-character separator. -/
def pySplitChar (c : Char) (s : String) : List String :=
  (splitChars c s.toList).map String.mk

-- ===== base64 (the parts of the base64 module the script uses) =====

/-- The base64 alphabet. -/
def b64alphabet : List Char :=
  "ABCDEFGHIJKLMNOPQRSTUVWXYZabcdefghijklmnopqrstuvwxyz0123456789+/".toList

/-- Character for a 6-bit group. -/
def b64char (n : Nat) : Char := b64alphabet.getD n 'A'

/-- Index of a base64 character. -/
def b64value (c : Char) : Option Nat := b64alphabet.indexOf? c

/-- base64.b64encode of a byte sequence, as a string. -/
def b64encode : List Nat → String
  | [] => ""
  | [a] =>
      String.mk [b64char (a / 4), b64char (a % 4 * 16)] ++ "=="
  | [a, b] =>
      String.mk [b64char (a / 4), b64char (a % 4 * 16 + b / 16), b64char (b % 16 * 4)] ++ "="
  | a :: b :: c :: rest =>
      String.mk [b64char (a / 4), b64char (a % 4 * 16 + b / 16),
                 b64char (b % 16 * 4 + c / 64), b64char (c % 64)] ++ b64encode rest

/-- base64.b64decode on well-formed base64 text: groups of four alphabet
characters, with = padding allowed in the final group; None models the
binascii error raised otherwise. -/
def b64decodeGroups : List Char → Option (List Nat)
  | [] => some []
  | a :: b :: c :: d :: rest => do
      let va ← b64value a
      let vb ← b64value b
      if c = '=' ∧ d = '=' ∧ rest = [] then
        some [va * 4 + vb / 16]
      else do
        let vc ← b64value c
        if d = '=' ∧ rest = [] then
          some [va * 4 + vb / 16, vb % 16 * 16 + vc / 4]
        else do
          let vd ← b64value d
          let tail ← b64decodeGroups rest
          some ([va * 4 + vb / 16, vb % 16 * 16 + vc / 4, vc % 4 * 64 + vd] ++ tail)
  | _ => none

def b64decode (s : String) : Option (List Nat) := b64decodeGroups s.toList

-- ===== save_generated_image (ask_gemini.py lines 355-374) =====

/-- A file written to disk: its name and its bytes. -/
structure SavedImage where
  filename : String
  bytes : List Nat
deriving DecidableEq, Repr

/-- The filesystem-friendly slug save_generated_image builds from the first
few words of the prompt (line 362-364). -/
def imageSlug (prompt_slug : String) : String :=
  let cleaned := String.mk (prompt_slug.toList.map
    (fun c => if c.isAlphanum || pyIsSpace c then c else ' '))
  let slug_words := pySplitWs cleaned
  let slug := pyStripChar '_' (String.intercalate "_" (slug_words.take 5))
  if slug = "" then "image" else slug

/-- save_generated_image: decodes base64 image data and writes it to a
timestamped file; returns the filename on success and None when writing
fails (the except branch), together with the write performed.  The
timestamp (datetime.now in the script) is passed explicitly. -/
def save_generated_image (base64_data : JValue) (prompt_slug : String)
    (extension : String) (timestamp : String) : Option String × List SavedImage :=
  let slug := imageSlug prompt_slug
  let filename := "generated_" ++ slug ++ "_" ++ timestamp ++ "." ++ extension
  match base64_data with
  | .str data =>
    match b64decode data with
    | some bs => (some filename, [⟨filename, bs⟩])
    | none => (none, [])
  | _ => (none, [])

-- ===== parse_api_response (ask_gemini.py lines 541-633) =====

/-- Accumulator state of parse_api_response: the collected textual parts,
the image flag, and the file writes performed so far. -/
structure ParseSt where
  all_parts_text : List JValue
  image_saved_this_turn : Bool
  writes : List SavedImage

/-- Result monad for the body of parse_api_response: a raised exception
carries the file writes already performed. -/
abbrev PRes (α : Type) := Except (PyErr × List SavedImage) α

/-- Lift a basic Python operation into the parse monad, attaching the
current writes to any exception. -/
def liftJ (writes : List SavedImage) : Except PyErr α → PRes α
  | .ok a => .ok a
  | .error e => .error (e, writes)

/-- Python len(). -/
def pyLen (v : JValue) : Except PyErr Nat :=
  match v with
  | .arr xs => .ok xs.length
  | .str s => .ok s.length
  | .obj fs => .ok fs.length
  | _ => .error (.typeErr "object has no len()")

/-- Python list subscript value[i]. -/
def pyIndexNat (v : JValue) (i : Nat) : Except PyErr JValue :=
  match v with
  | .arr xs =>
    match xs.get? i with
    | some w => .ok w
    | none => .error (.indexErr "list index out of range")
  | _ => .error (.typeErr "object is not subscriptable")

/-- Python dict.get(key, default). -/
def jGetD (v : JValue) (k : String) (d : JValue) : Except PyErr JValue :=
  match v.get k with
  | .ok (some w) => .ok w
  | .ok none => .ok d
  | .error e => .error e

/-- Python "sep".join(list) — every element must be a string. -/
def pyJoin (sep : String) : List JValue → Except PyErr String
  | [] => .ok ""
  | [.str s] => .ok s
  | .str s :: rest => do
      let tail ← pyJoin sep rest
      .ok (s ++ sep ++ tail)
  | _ => .error (.typeErr "sequence item: expected str instance")

/-- One iteration of the part loop of parse_api_response (lines 578-614).
The reference to generation_prompt_text on line 589 is translated as the
NameError Python raises there: parse_api_response takes no such parameter
(although its docstring documents one and main passes one). -/
def processPart (part : JValue) (st : ParseSt) : PRes ParseSt := do
  -- if "text" in part and part["text"]:
  let hasText ← liftJ st.writes (JValue.mem "text" part)
  let st ← do
    if hasText then
      let tv ← liftJ st.writes (part.index "text")
      if tv.truthy then
        pure { st with all_parts_text := st.all_parts_text ++ [tv] }
      else pure st
    else pure st
  -- if "inlineData" in part and "data" in part["inlineData"]
  --                          and "mimeType" in part["inlineData"]:
  let hasInline ← liftJ st.writes (JValue.mem "inlineData" part)
  let inlineCond ← do
    if hasInline then
      let inl ← liftJ st.writes (part.index "inlineData")
      let hasData ← liftJ st.writes (JValue.mem "data" inl)
      if hasData then
        let inl2 ← liftJ st.writes (part.index "inlineData")
        liftJ st.writes (JValue.mem "mimeType" inl2)
      else pure false
    else pure false
  if inlineCond then do
    let inl ← liftJ st.writes (part.index "inlineData")
    let mimeV ← liftJ st.writes (inl.index "mimeType")
    match mimeV with
    | .str mime_type =>
      if pyStartsWith mime_type "image/" then do
        let image_b64 ← liftJ st.writes (inl.index "data")
        let extension := (pySplitChar '/' mime_type).getLastD ""
        -- line 589: generation_prompt_text is unbound here -> NameError
        let slug_for_filename ←
          (.error (PyErr.nameErr "generation_prompt_text", st.writes) : PRes String)
        -- line 590 is unreachable after the NameError; the call is kept so
        -- the translation stays complete ("timestamp" stands for the
        -- datetime.now value save_generated_image would use)
        let res := save_generated_image image_b64 slug_for_filename extension "timestamp"
        match res.1 with
        | some _ =>
            pure { st with image_saved_this_turn := true, writes := st.writes ++ res.2 }
        | none => pure { st with writes := st.writes ++ res.2 }
      else
        pure { st with all_parts_text := st.all_parts_text ++
          [JValue.str ("[Received unsupported inlineData mime_type: " ++ mime_type ++ "]")] }
    | _ => .error (.attributeErr "object has no attribute 'startswith'", st.writes)
  else do
    -- elif "fileData" in part and "fileUri" in part["fileData"]:
    let hasFile ← liftJ st.writes (JValue.mem "fileData" part)
    let fileCond ← do
      if hasFile then
        let fd ← liftJ st.writes (part.index "fileData")
        liftJ st.writes (JValue.mem "fileUri" fd)
      else pure false
    if fileCond then do
      let fd ← liftJ st.writes (part.index "fileData")
      let uri ← liftJ st.writes (fd.index "fileUri")
      let mime2 ← liftJ st.writes (jGetD fd "mimeType" (JValue.str "N/A"))
      pure { st with all_parts_text := st.all_parts_text ++
        [JValue.str ("Image available at URI: " ++ pyStr uri ++
                     " (MIME: " ++ pyStr mime2 ++ ")")] }
    else do
      -- elif "functionCall" in part:
      let hasFc ← liftJ st.writes (JValue.mem "functionCall" part)
      if hasFc then do
        let fc ← liftJ st.writes (part.index "functionCall")
        let fc_name ← liftJ st.writes (jGetD fc "name" (JValue.str "unknown_function"))
        let fc_args ← liftJ st.writes (jGetD fc "args" (JValue.obj []))
        pure { st with all_parts_text := st.all_parts_text ++
          [JValue.str ("[Model wants to call function '" ++ pyStr fc_name ++
                       "' with arguments: " ++ json_dumps fc_args ++ "]"),
           JValue.str ("  (Note: This script's image generation is experimental and may require multi-turn tool handling not fully implemented here if only a function call is returned.)")] }
      else pure st

/-- The part loop of parse_api_response over one candidate's parts. -/
def processParts : List JValue → ParseSt → PRes ParseSt
  | [], st => .ok st
  | p :: rest, st => do
      let st ← processPart p st
      processParts rest st

/-- The candidate loop of parse_api_response (lines 569-614). -/
def processCandidates (json_response : JValue) : Nat → List JValue → ParseSt → PRes ParseSt
  | _, [], st => .ok st
  | idx, cand :: rest, st => do
      -- content = candidate.get("content")
      let content ← liftJ st.writes (cand.get "content")
      -- if not content or not content.get("parts"):
      let bad ← do
        if !(JValue.otruthy content) then pure true
        else
          match content with
          | some c => do
              let parts? ← liftJ st.writes (c.get "parts")
              pure (!(JValue.otruthy parts?))
          | none => pure true
      if bad then
        if idx = 0 then
          .error (.apiError ("Primary candidate in API response is missing 'content' or 'parts'. Response: "
                              ++ json_dumps json_response), st.writes)
        else
          processCandidates json_response (idx + 1) rest st
      else
        match content with
        | some c => do
            -- for part in content.get("parts", []):
            let partsv ← liftJ st.writes (jGetD c "parts" (JValue.arr []))
            let elems ← liftJ st.writes (JValue.pyIter partsv)
            let st ← processParts elems st
            processCandidates json_response (idx + 1) rest st
        | none => processCandidates json_response (idx + 1) rest st

/-- The body of parse_api_response inside its try block (lines 559-630),
returning the final text together with the writes performed. -/
def parse_api_response_body (json_response : JValue) : PRes (String × List SavedImage) := do
  let candidates ← liftJ [] (json_response.get "candidates")
  -- if not candidates or not isinstance(candidates, list) or len(candidates) == 0:
  let badCands :=
    match candidates with
    | none => true
    | some c => !c.truthy || !c.isList ||
        (match c with | .arr xs => xs.length = 0 | _ => false)
  if badCands then
    .error (.apiError ("API response is missing 'candidates' list or it is empty. Response: "
                        ++ json_dumps json_response), [])
  else do
    let candList :=
      match candidates with
      | some (.arr xs) => xs
      | _ => []
    let st ← processCandidates json_response 0 candList
                ⟨[], false, []⟩
    -- if not all_parts_text and not image_saved_this_turn:
    if st.all_parts_text.isEmpty && !st.image_saved_this_turn then do
      -- primary_candidate_parts =
      --   json_response.get("candidates", [{}])[0].get("content", {}).get("parts", [])
      let cands ← liftJ st.writes (jGetD json_response "candidates" (JValue.arr [JValue.obj []]))
      let cand0 ← liftJ st.writes (pyIndexNat cands 0)
      let content0 ← liftJ st.writes (jGetD cand0 "content" (JValue.obj []))
      let pparts ← liftJ st.writes (jGetD content0 "parts" (JValue.arr []))
      let plen ← liftJ st.writes (pyLen pparts)
      let fcCase ← do
        if plen = 1 then do
          let p0 ← liftJ st.writes (pyIndexNat pparts 0)
          let fc ← liftJ st.writes (p0.get "functionCall")
          pure (JValue.otruthy fc)
        else pure false
      if fcCase then do
        let joined ← liftJ st.writes (pyJoin "\n" st.all_parts_text)
        .ok (pyStrip joined, st.writes)
      else
        .error (.apiError ("No usable text or image data found in API response. Response: "
                            ++ json_dumps json_response), st.writes)
    else do
      let joined ← liftJ st.writes (pyJoin "\n" st.all_parts_text)
      .ok (pyStrip joined, st.writes)

/-- parse_api_response with its except wrapper (lines 632-633): KeyError,
IndexError and TypeError are re-raised as APIError; every other exception
(in particular the NameError from line 589) propagates unchanged.  The
second component records the files written. -/
def parse_api_response_run (json_response : JValue) : Except PyErr String × List SavedImage :=
  match parse_api_response_body json_response with
  | .ok (s, ws) => (.ok s, ws)
  | .error (e, ws) =>
    match e with
    | .keyErr k =>
        (.error (.apiError ("Error parsing API response structure: '" ++ k ++
                            "'. Response: " ++ json_dumps json_response)), ws)
    | .indexErr m =>
        (.error (.apiError ("Error parsing API response structure: " ++ m ++
                            ". Response: " ++ json_dumps json_response)), ws)
    | .typeErr m =>
        (.error (.apiError ("Error parsing API response structure: " ++ m ++
                            ". Response: " ++ json_dumps json_response)), ws)
    | other => (.error other, ws)

/-- parse_api_response as called by the script (return value only). -/
def parse_api_response (json_response : JValue) : Except PyErr String :=
  (parse_api_response_run json_response).1

/-- main (lines 866-869) calls parse_api_response with a
generation_prompt_text keyword argument; the function's signature
(line 541) has no such parameter, so Python raises TypeError at the call,
before the body runs. -/
def parse_api_response_called_from_main (json_response : JValue)
    (generation_prompt_text : Option String) : Except PyErr String :=
  .error (.typeErr "parse_api_response() got an unexpected keyword argument 'generation_prompt_text'")

-- ===== Model registry constants (ask_gemini.py lines 22-44) =====

def SUPPORTED_TEXT_MODELS : List String :=
  ["gemini-1.5-flash", "gemini-1.5-pro-latest", "gemini-1.0-pro"]

def SUPPORTED_MULTIMODAL_MODELS : List String :=
  ["gemini-1.5-pro-latest", "gemini-1.5-flash"]

def SUPPORTED_IMAGE_GENERATION_MODELS : List String := ["imagen-2"]

def DEFAULT_TEXT_MODEL : String := "gemini-1.5-flash"

def DEFAULT_VISION_MODEL : String := "gemini-1.5-pro-latest"

def DEFAULT_IMAGE_GENERATION_MODEL : String := "imagen-2"

def DEFAULT_CHAT_MODEL : String := "gemini-1.5-flash"

def MAX_HISTORY_TURNS : Nat := 10

/-- Truthiness of an optional string argument (Python: None and the empty
string are falsy). -/
def ostrTruthy : Option String → Bool
  | none => false
  | some s => s ≠ ""

/-- The fixed safetySettings block attached to every payload
(lines 441-446 and 480-485). -/
def safetySettings : JValue := .arr [
  .obj [("category", .str "HARM_CATEGORY_HARASSMENT"), ("threshold", .str "BLOCK_MEDIUM_AND_ABOVE")],
  .obj [("category", .str "HARM_CATEGORY_HATE_SPEECH"), ("threshold", .str "BLOCK_MEDIUM_AND_ABOVE")],
  .obj [("category", .str "HARM_CATEGORY_SEXUALLY_EXPLICIT"), ("threshold", .str "BLOCK_MEDIUM_AND_ABOVE")],
  .obj [("category", .str "HARM_CATEGORY_DANGEROUS_CONTENT"), ("threshold", .str "BLOCK_MEDIUM_AND_ABOVE")]]

-- ===== encode_image_to_base64 (lines 347-353) =====

/-- encode_image_to_base64: reads the file's bytes and base64-encodes
them; raises FileNotFoundError when the path is invalid.  The filesystem
is passed as a map from path to bytes (None = no such file). -/
def encode_image_to_base64 (fs : String → Option (List Nat)) (image_path : String) :
    Except PyErr String :=
  match fs image_path with
  | some bytes => .ok (b64encode bytes)
  | none => .error (.fileNotFoundErr image_path)

-- ===== construct_api_payload (lines 377-487) =====

/-- The history part of the payload (lines 449-453): each history item
contributes an object with its "role" and "parts" fields. -/
def historyPayload : List JValue → Except PyErr (List JValue)
  | [] => .ok []
  | item :: rest => do
      let role ← item.index "role"
      let parts ← item.index "parts"
      let tail ← historyPayload rest
      .ok (JValue.obj [("role", role), ("parts", parts)] :: tail)

/-- The image-generation payload (lines 409-447), selected when a
generation prompt is supplied and the model supports image generation. -/
def imageGenerationPayload (generation_prompt : String) (temperature : JValue) : JValue :=
  .obj [
    ("contents", .arr [
      .obj [("role", .str "user"),
            ("parts", .arr [.obj [("text", .str ("Please generate an image based on this description: "
                                                 ++ generation_prompt))]])]]),
    ("tools", .arr [
      .obj [("function_declarations", .arr [
        .obj [("name", .str "generate_image"),
              ("description", .str "Generates an image based on a textual prompt provided by the user."),
              ("parameters", .obj [
                ("type", .str "OBJECT"),
                ("properties", .obj [
                  ("prompt", .obj [("type", .str "STRING"),
                                   ("description", .str "The detailed textual prompt for image generation.")])]),
                ("required", .arr [.str "prompt"])])]])]]),
    ("tool_config", .obj [
      ("mode", .str "ANY"),
      ("function_calling_config", .obj [
        ("mode", .str "ANY"),
        ("allowed_function_names", .arr [.str "generate_image"])])]),
    ("generationConfig", .obj [("temperature", temperature)]),
    ("safetySettings", safetySettings)]

/-- construct_api_payload, up to the final json.dumps: produces the payload
dictionary of lines 409-486.  Generation parameters are passed through
unchanged as JSON values; the filesystem backs the optional input image. -/
def construct_api_payload_value
    (prompt_text : String) (temperature max_output_tokens top_p top_k : JValue)
    (image_path : Option String) (model_name : String)
    (history : List JValue) (generation_prompt : Option String)
    (fs : String → Option (List Nat)) : Except PyErr JValue :=
  -- if generation_prompt and model_name in SUPPORTED_IMAGE_GENERATION_MODELS:
  if ostrTruthy generation_prompt && SUPPORTED_IMAGE_GENERATION_MODELS.contains model_name then
    .ok (imageGenerationPayload (generation_prompt.getD "") temperature)
  else do
    let conversation_history_payload ← historyPayload history
    -- current_parts = [{"text": prompt_text if prompt_text else " "}]
    let textPart := JValue.obj [("text", .str (if prompt_text ≠ "" then prompt_text else " "))]
    -- if image_path and model_name in SUPPORTED_MULTIMODAL_MODELS: append inline_data
    let current_parts ←
      if ostrTruthy image_path && SUPPORTED_MULTIMODAL_MODELS.contains model_name then
        match image_path with
        | some p =>
          (match encode_image_to_base64 fs p with
           | .ok image_b64 =>
               .ok [textPart,
                 JValue.obj [("inline_data", .obj [("mime_type", .str "image/jpeg"),
                                                   ("data", .str image_b64)])]]
           | .error (.fileNotFoundErr _) =>
               .error (.apiError ("Image file not found at path: " ++ p))
           | .error e =>
               .error (.apiError ("Error encoding image " ++ p ++ ": error")))
        | none => .ok [textPart]
      else
        .ok [textPart]
    let user_content := JValue.obj [("role", .str "user"), ("parts", .arr current_parts)]
    .ok (.obj [
      ("contents", .arr (conversation_history_payload ++ [user_content])),
      ("generationConfig", .obj [
        ("temperature", temperature), ("topP", top_p), ("topK", top_k),
        ("maxOutputTokens", max_output_tokens)]),
      ("safetySettings", safetySettings)])

/-- construct_api_payload as the script returns it: the payload serialized
with json.dumps (line 487). -/
def construct_api_payload
    (prompt_text : String) (temperature max_output_tokens top_p top_k : JValue)
    (image_path : Option String) (model_name : String)
    (history : List JValue) (generation_prompt : Option String)
    (fs : String → Option (List Nat)) : Except PyErr String :=
  (construct_api_payload_value prompt_text temperature max_output_tokens top_p top_k
    image_path model_name history generation_prompt fs).map json_dumps

-- ===== build_prompt_from_files (lines 666-685) =====

/-- build_prompt_from_files over the file contents that were read
successfully (a missing file makes the script exit before composing).
Each file contributes a labeled block; the blocks are joined with blank
lines and the user prompt follows under its own label. -/
def build_prompt_from_files (files : List (String × String)) (base_prompt_text : String) : String :=
  let all_file_contents := files.map
    (fun pc => "Content from file '" ++ pc.1 ++ "':\n" ++ pc.2 ++ "\n---")
  if all_file_contents.isEmpty then base_prompt_text
  else String.intercalate "\n\n" all_file_contents ++ "\n\nUser Prompt:\n" ++ base_prompt_text

-- ===== Prompt composition in main (lines 797-838, non-generation path) =====

/-- The final prompt main builds for a single-shot text or multimodal
query (generation_mode false): the raw prompt, optionally preceded by file
content blocks, then wrapped by the local and general context blocks
(lines 798-801 and 818-838). -/
def compose_final_prompt (general_context local_context : Option String)
    (files : List (String × String)) (prompt : String) : String :=
  let base_prompt_for_api :=
    if files.isEmpty then prompt else build_prompt_from_files files prompt
  let afterLocal :=
    if ostrTruthy local_context then
      (if !files.isEmpty then
        "Using local context:\n" ++ local_context.getD "" ++ "\n---\n" ++ base_prompt_for_api
      else
        "Using local context:\n" ++ local_context.getD "" ++ "\n---\nUser Prompt:\n" ++ base_prompt_for_api)
    else base_prompt_for_api
  if ostrTruthy general_context then
    "Using general context:\n" ++ general_context.getD "" ++ "\n---\n" ++ afterLocal
  else afterLocal

/-- Model selection in main for the non-generation path (lines 803-816):
with an input image, a non-multimodal model is replaced by the default
vision model; without one, a model that is neither a text nor a multimodal
model is replaced by the default text model.  The boolean records whether
a substitution warning was printed. -/
def select_model_for_query (model : String) (image_path : Option String) : String × Bool :=
  if ostrTruthy image_path then
    if SUPPORTED_MULTIMODAL_MODELS.contains model then (model, false)
    else (DEFAULT_VISION_MODEL, true)
  else
    if SUPPORTED_TEXT_MODELS.contains model || SUPPORTED_MULTIMODAL_MODELS.contains model then
      (model, false)
    else (DEFAULT_TEXT_MODEL, true)

/-- The history window sent with a request (lines 297 and 772): the last
MAX_HISTORY_TURNS * 2 records. -/
def history_window (history : List JValue) : List JValue :=
  history.drop (history.length - MAX_HISTORY_TURNS * 2)

/-- The full single-shot request pipeline for a text or multimodal query:
model selection, prompt composition and payload construction as main
performs them (lines 770-857 with generation_mode false). -/
def single_shot_request (general_context local_context : Option String)
    (files : List (String × String)) (prompt : String)
    (image_path : Option String) (model : String) (history : List JValue)
    (temperature max_output_tokens top_p top_k : JValue)
    (fs : String → Option (List Nat)) : Except PyErr JValue :=
  let current_model := (select_model_for_query model image_path).1
  construct_api_payload_value
    (compose_final_prompt general_context local_context files prompt)
    temperature max_output_tokens top_p top_k
    image_path current_model (history_window history) none fs

-- ===== GeminiAPIClient.call_api (lines 499-538) =====

/-- Outcome of the single HTTP POST that call_api performs: a connection
error, a timeout, a response (status, reason phrase, body text, and the
body parsed as JSON when it is valid JSON), or another request exception. -/
inductive HttpOutcome where
  | connErr (emsg : String) : HttpOutcome
  | timedOut (emsg : String) : HttpOutcome
  | response (status : Nat) (reason : String) (text : String) (jsonBody : Option JValue) : HttpOutcome
  | otherErr (emsg : String) : HttpOutcome

/-- The fixed per-call timeout passed to requests.post (line 518). -/
def call_api_timeout : Nat := 60

def api_base_url : String := "https://generativelanguage.googleapis.com/v1beta/models"

/-- The endpoint URL for a model (line 513). -/
def api_url (model_name : String) : String :=
  api_base_url ++ "/" ++ model_name ++ ":generateContent"

/-- The message of the HTTPError that response.raise_for_status raises for
a 4xx/5xx status. -/
def http_error_str (status : Nat) (reason : String) (url : String) : String :=
  toString status ++
    (if status < 500 then " Client Error: " else " Server Error: ") ++
    reason ++ " for url: " ++ url

/-- GeminiAPIClient.call_api: performs exactly one POST (with the fixed
timeout) through the supplied transport and classifies the outcome into
APIError failures exactly as lines 517-538 do; a successful response's
body is returned parsed as JSON. -/
def GeminiAPIClient.call_api (model_name : String) (payload_json : String)
    (post : String → String → Nat → HttpOutcome) : Except PyErr JValue :=
  match post (api_url model_name) payload_json call_api_timeout with
  | .connErr e =>
      .error (.apiError ("Error connecting to the API. Please check your internet connection and the API endpoint: "
                          ++ api_url model_name ++ ". Original error: " ++ e))
  | .timedOut e =>
      .error (.apiError ("The request to the API timed out after 60 seconds. Original error: " ++ e))
  | .otherErr e =>
      .error (.apiError ("An unexpected error occurred while calling the Gemini API: " ++ e))
  | .response status reason text jsonBody =>
      if 400 ≤ status ∧ status < 600 then
        -- raise_for_status raised; build the enriched APIError message
        let base := "API request failed with HTTP status code " ++ toString status ++
                    " (" ++ reason ++ ")."
        let extraE : Except PyErr String :=
          match jsonBody with
          | none => .ok (" Full response: " ++ text)   -- response.json() raised ValueError
          | some error_details => do
              let hasErr ← JValue.mem "error" error_details
              if hasErr then do
                let errv ← error_details.index "error"
                let hasMsg ← JValue.mem "message" errv
                if hasMsg then do
                  let msg ← errv.index "message"
                  .ok (" API Error Message: " ++ pyStr msg)
                else .ok (" Full response: " ++ text)
              else .ok (" Full response: " ++ text)
        match extraE with
        | .ok extra =>
            .error (.apiError (base ++ extra ++ ". Original error: " ++
                               http_error_str status reason (api_url model_name)))
        | .error e => .error e
      else
        match jsonBody with
        | some j => .ok j
        | none => .error (.valueErr "Expecting value: response body is not JSON")

-- ===== One chat turn (start_chat_session, lines 296-341) =====

/-- A conversation turn held in memory by the chat loop. -/
structure PyTurn where
  role : String
  parts : List JValue

def PyTurn.toJ (t : PyTurn) : JValue :=
  .obj [("role", .str t.role), ("parts", .arr t.parts)]

/-- One chat turn after the user's input was read (lines 322-341): the API
call result is interpreted; on success the user and model records are
appended to the in-memory history and the whole list is persisted, on any
APIError or other exception the history is left untouched and nothing is
written.  The first component is the in-memory history after the turn, the
second the history written to disk (None = no write). -/
def chat_turn (current_history : List PyTurn) (user_input : String)
    (call_result : Except PyErr JValue) : List PyTurn × Option (List PyTurn) :=
  match (do
      let json_response ← call_result
      parse_api_response json_response : Except PyErr String) with
  | .ok response_text =>
      let nh := current_history ++
        [⟨"user", [JValue.obj [("text", .str user_input)]]⟩,
         ⟨"model", [JValue.obj [("text", .str response_text)]]⟩]
      (nh, some nh)
  | .error _ => (current_history, none)

-- ===== json.loads and load_local_history (lines 220-238) =====

/-- Opening brace character (written numerically). -/
def lbraceChar : Char := Char.ofNat 123

/-- Closing brace character (written numerically). -/
def rbraceChar : Char := Char.ofNat 125

/-- JSON whitespace. -/
def jsonWs (c : Char) : Bool :=
  c == ' ' || c == '\t' || c == '\n' || c == '\r'

def skipWs (cs : List Char) : List Char := cs.dropWhile jsonWs

/-- Parse the body of a JSON string literal after the opening quote,
handling the standard escapes; raw control characters are rejected as
json.loads does in strict mode. -/
def parseStringBody : Nat → List Char → Option (String × List Char)
  | 0, _ => none
  | _, [] => none
  | _ + 1, '"' :: rest => some ("", rest)
  | fuel + 1, '\\' :: e :: rest =>
      let dec : Option (Char × List Char) :=
        if e = '"' then some ('"', rest)
        else if e = '\\' then some ('\\', rest)
        else if e = '/' then some ('/', rest)
        else if e = 'n' then some ('\n', rest)
        else if e = 't' then some ('\t', rest)
        else if e = 'r' then some ('\r', rest)
        else if e = 'b' then some (Char.ofNat 8, rest)
        else if e = 'f' then some (Char.ofNat 12, rest)
        else if e = 'u' then
          match rest with
          | h₁ :: h₂ :: h₃ :: h₄ :: rest₂ =>
            let hex := fun (c : Char) =>
              if c.isDigit then some (c.toNat - 48)
              else if 'a' ≤ c ∧ c ≤ 'f' then some (c.toNat - 87)
              else if 'A' ≤ c ∧ c ≤ 'F' then some (c.toNat - 55)
              else none
            match hex h₁, hex h₂, hex h₃, hex h₄ with
            | some a, some b, some c, some d =>
                some (Char.ofNat (a * 4096 + b * 256 + c * 16 + d), rest₂)
            | _, _, _, _ => none
          | _ => none
        else none
      match dec with
      | some (c, rest₂) =>
        match parseStringBody fuel rest₂ with
        | some (s, rest₃) => some (String.singleton c ++ s, rest₃)
        | none => none
      | none => none
  | fuel + 1, c :: rest =>
      if c.toNat < 32 then none
      else
        match parseStringBody fuel rest with
        | some (s, rest₂) => some (String.singleton c ++ s, rest₂)
        | none => none

/-- Digits of a number literal. -/
def takeDigits (cs : List Char) : List Char × List Char :=
  (cs.takeWhile Char.isDigit, cs.dropWhile Char.isDigit)

def digitsToNat (ds : List Char) : Nat :=
  ds.foldl (fun acc c => acc * 10 + (c.toNat - 48)) 0

/-- Parse a JSON number (integer, fraction, exponent; leading zeros
rejected as json.loads does). -/
def parseNumber (cs : List Char) : Option (JValue × List Char) :=
  let (neg, cs₁) := match cs with
    | '-' :: r => (true, r)
    | _ => (false, cs)
  let (intDigits, cs₂) := takeDigits cs₁
  if intDigits.isEmpty then none
  else if intDigits.length > 1 ∧ intDigits.headD '0' = '0' then none
  else
    let (fracDigits, cs₃) := match cs₂ with
      | '.' :: r =>
        let p := takeDigits r
        (p.1, p.2)
      | _ => ([], cs₂)
    let fracFailed := match cs₂ with
      | '.' :: _ => fracDigits.isEmpty
      | _ => false
    if fracFailed then none
    else
      let expPart : Option (Int × List Char) := match cs₃ with
        | 'e' :: r | 'E' :: r =>
          let (esign, r₂) := match r with
            | '+' :: q => ((1 : Int), q)
            | '-' :: q => ((-1 : Int), q)
            | _ => ((1 : Int), r)
          let (eds, r₃) := takeDigits r₂
          if eds.isEmpty then none else some (esign * (digitsToNat eds : Int), r₃)
        | _ => some (0, cs₃)
      match expPart with
      | none => none
      | some (expv, cs₄) =>
        let hasDot := match cs₂ with | '.' :: _ => true | _ => false
        let hasExp := match cs₃ with | 'e' :: _ => true | 'E' :: _ => true | _ => false
        let mantNat := digitsToNat (intDigits ++ fracDigits)
        let mant : Int := if neg then -(mantNat : Int) else (mantNat : Int)
        if hasDot ∨ hasExp then
          some (.flt mant (expv - fracDigits.length), cs₄)
        else
          some (.int mant, cs₄)

/-- Insert a parsed object field with Python dict semantics: a repeated
key keeps its first position but takes the new value. -/
def insertField (fs : List (String × JValue)) (k : String) (v : JValue) :
    List (String × JValue) :=
  if fs.any (fun p => p.1 = k) then
    fs.map (fun p => if p.1 = k then (k, v) else p)
  else fs ++ [(k, v)]

mutual

/-- Fuel-bounded recursive-descent JSON value parser. -/
def parseJ : Nat → List Char → Option (JValue × List Char)
  | 0, _ => none
  | fuel + 1, cs =>
    match skipWs cs with
    | 'n' :: 'u' :: 'l' :: 'l' :: rest => some (.null, rest)
    | 't' :: 'r' :: 'u' :: 'e' :: rest => some (.bool true, rest)
    | 'f' :: 'a' :: 'l' :: 's' :: 'e' :: rest => some (.bool false, rest)
    | '"' :: rest =>
      match parseStringBody (rest.length + 1) rest with
      | some (s, rest₂) => some (.str s, rest₂)
      | none => none
    | c :: rest =>
      if c = '[' then
        match skipWs rest with
        | ']' :: rest₂ => some (.arr [], rest₂)
        | _ => match parseArrItems fuel rest with
          | some (xs, rest₂) => some (.arr xs, rest₂)
          | none => none
      else if c = lbraceChar then
        match skipWs rest with
        | d :: rest₂ =>
          if d = rbraceChar then some (.obj [], rest₂)
          else match parseObjItems fuel rest with
            | some (fs, rest₃) => some (.obj fs, rest₃)
            | none => none
        | [] => none
      else parseNumber (c :: rest)
    | [] => none

/-- Comma-separated array items up to the closing bracket. -/
def parseArrItems : Nat → List Char → Option (List JValue × List Char)
  | 0, _ => none
  | fuel + 1, cs => do
    let (v, rest) ← parseJ fuel cs
    match skipWs rest with
    | ',' :: rest₂ => do
        let (xs, rest₃) ← parseArrItems fuel rest₂
        some (v :: xs, rest₃)
    | ']' :: rest₂ => some ([v], rest₂)
    | _ => none

/-- Comma-separated object members up to the closing brace. -/
def parseObjItems : Nat → List Char → Option (List (String × JValue) × List Char)
  | 0, _ => none
  | fuel + 1, cs =>
    match skipWs cs with
    | '"' :: rest => do
      let (k, rest₂) ← parseStringBody (rest.length + 1) rest
      match skipWs rest₂ with
      | ':' :: rest₃ => do
        let (v, rest₄) ← parseJ fuel rest₃
        match skipWs rest₄ with
        | ',' :: rest₅ => do
            let (fs, rest₆) ← parseObjItems fuel rest₅
            some (insertField fs k v, rest₆)
        | d :: rest₅ =>
            if d = rbraceChar then some ([(k, v)], rest₅) else none
        | [] => none
      | _ => none
    | _ => none

end

/-- json.loads: parse a complete JSON document; None models the
JSONDecodeError raised on invalid input. -/
def json_loads (s : String) : Option JValue :=
  match parseJ (s.length + 1) s.toList with
  | some (v, rest) => if (skipWs rest).isEmpty then some v else none
  | none => none

/-- load_local_history (lines 220-238): a missing file, an empty file and
invalid JSON all yield the empty history; otherwise the parsed JSON
document is returned as is.  The file's content is passed as an optional
string (None = the file does not exist). -/
def load_local_history (file_content : Option String) : JValue :=
  match file_content with
  | none => .arr []
  | some content =>
    if content = "" then .arr []
    else
      match json_loads content with
      | some v => v
      | none => .arr []

-- ===== Inspection helpers for payloads and responses =====

/-- Total field lookup on a JSON object (None for other values). -/
def jLookup (v : JValue) (k : String) : Option JValue :=
  match v with
  | .obj fs => JValue.lookupLast k fs
  | _ => none

/-- The "contents" turn list of a payload. -/
def payloadContents (payload : JValue) : List JValue :=
  match jLookup payload "contents" with
  | some (.arr xs) => xs
  | _ => []

/-- The current user turn of a payload: the last element of "contents". -/
def currentTurn (payload : JValue) : JValue :=
  (payloadContents payload).getLastD (.obj [])

/-- The parts list of a turn. -/
def turnPartsList (turn : JValue) : List JValue :=
  match jLookup turn "parts" with
  | some (.arr xs) => xs
  | _ => []

/-- Whether a turn carries an inline image part. -/
def turnHasInlineImage (turn : JValue) : Bool :=
  (turnPartsList turn).any (fun part => (jLookup part "inline_data").isSome)

/-- The text of the first part of the current user turn. -/
def currentTurnText (payload : JValue) : Option JValue :=
  match turnPartsList (currentTurn payload) with
  | p :: _ => jLookup p "text"
  | [] => none

-- ===== Concrete inputs used by the claims =====

/-- A nominally successful response whose single part is inline PNG data. -/
def pngInlineResponse : JValue := .obj [("candidates", .arr [
  .obj [("content", .obj [("parts", .arr [
    .obj [("inlineData", .obj [("mimeType", .str "image/png"),
                               ("data", .str "iVBORw0KGgoAAAANSUhEUg==")])]])])]])]

/-- A response whose only candidate carries a finish reason and nothing
else (no content, hence zero accumulated text). -/
def finishReasonOnlyResponse (fr : String) : JValue :=
  .obj [("candidates", .arr [.obj [("finishReason", .str fr)]])]

/-- A response delivering its text in two parts under a normal finish
reason. -/
def twoTextResponse (s₁ s₂ : String) : JValue :=
  .obj [("candidates", .arr [
    .obj [("content", .obj [("parts", .arr [
            .obj [("text", .str s₁)], .obj [("text", .str s₂)]])]),
          ("finishReason", .str "STOP")]])]

/-- A one-file filesystem holding img.png with three bytes. -/
def exampleFs : String → Option (List Nat) :=
  fun p => if p = "img.png" then some [1, 2, 3] else none

/-- The text part construct_api_payload builds for a prompt. -/
def examplePromptPart : JValue := .obj [("text", .str "hi")]

/-- The inline image part construct_api_payload builds for img.png under
exampleFs. -/
def exampleImagePart : JValue :=
  .obj [("inline_data", .obj [("mime_type", .str "image/jpeg"), ("data", .str "AQID")])]

/-- A history turn whose text marks it recognizably. -/
def exampleHistoryTurn : JValue :=
  .obj [("role", .str "user"), ("parts", .arr [.obj [("text", .str "HISTTEXT")]])]

-- ===== The fixed-order reformulation of the composed prompt =====

/-- The composed single-shot prompt written as one explicitly ordered
concatenation: the general-context block, then the local-context block,
then the file blocks, then the current input (labeled User Prompt only
when a local context or files precede it), empty sections contributing
nothing.  compose_final_prompt is proved equal to this form. -/
def composedExplicit (general_context local_context : Option String)
    (files : List (String × String)) (prompt : String) : String :=
  (if ostrTruthy general_context then
      "Using general context:\n" ++ general_context.getD "" ++ "\n---\n"
    else "") ++
  (if ostrTruthy local_context then
      "Using local context:\n" ++ local_context.getD "" ++ "\n---\n" ++
        (if files.isEmpty then "User Prompt:\n" else "")
    else "") ++
  (if files.isEmpty then ""
    else String.intercalate "\n\n" (files.map
           (fun pc => "Content from file '" ++ pc.1 ++ "':\n" ++ pc.2 ++ "\n---"))
         ++ "\n\nUser Prompt:\n") ++
  prompt

/-- The composed prompt of the C6 counterexample input. -/
def c6ComposedPrompt : String :=
  "Using general context:\nG\n---\nUsing local context:\nL\n---\nContent from file 'f.txt':\nFDATA\n---\n\nUser Prompt:\nP"

/-- The text part construct_api_payload builds for the current prompt
(line 456). -/
def mkTextPart (prompt_text : String) : JValue :=
  .obj [("text", .str (if prompt_text ≠ "" then prompt_text else " "))]

/-- The inline image part construct_api_payload appends for an input
image with the given bytes (lines 460-461). -/
def mkImagePart (bytes : List Nat) : JValue :=
  .obj [("inline_data", .obj [("mime_type", .str "image/jpeg"),
                              ("data", .str (b64encode bytes))])]

/-- The generationConfig block of the text/multimodal payload
(lines 474-479). -/
def mkGenerationConfig (temperature top_p top_k max_output_tokens : JValue) : JValue :=
  .obj [("temperature", temperature), ("topP", top_p), ("topK", top_k),
        ("maxOutputTokens", max_output_tokens)]

-- ===== Claim theorems =====

/-- C1: the claim says a response part with inline image/png data makes
interpretation save a file and report its path without error.  The code
instead raises: parse_api_response evaluates the unbound name
generation_prompt_text on line 589 (NameError, uncaught by the
KeyError/IndexError/TypeError wrapper), writes no file, and main's call
site passes a generation_prompt_text keyword the signature lacks
(TypeError).  This theorem evaluates the code at the failing input. -/
theorem c1_inline_png_raises_instead_of_saving :
    parse_api_response pngInlineResponse = .error (.nameErr "generation_prompt_text")
    ∧ (parse_api_response_run pngInlineResponse).2 = []
    ∧ parse_api_response_called_from_main pngInlineResponse (some "a cat")
        = .error (.typeErr "parse_api_response() got an unexpected keyword argument 'generation_prompt_text'") :=
  ⟨rfl, rfl, rfl⟩

/-- C2 counterexample: for the response whose only candidate carries
finish-reason "SAFETY" and no content, interpretation does not produce a
Blocked result — it raises the generic missing-content APIError (the
finish reason is never inspected), and no artifact is written. -/
theorem c2_counterexample_safety_candidate_raises :
    parse_api_response (finishReasonOnlyResponse "SAFETY")
      = .error (.apiError ("Primary candidate in API response is missing 'content' or 'parts'. Response: \x7b\"candidates\": [\x7b\"finishReason\": \"SAFETY\"\x7d]\x7d"))
    ∧ (parse_api_response_run (finishReasonOnlyResponse "SAFETY")).2 = [] :=
  ⟨rfl, rfl⟩

/-- C2 amended: for every raw response whose only candidate carries a
finish reason (such as "SAFETY") and no content, interpretation raises an
APIError reporting the missing content/parts — there is no distinct
Blocked state and the finish reason is never read — with no text produced
and no artifact saved. -/
theorem c2_safety_finish_reason_yields_apierror (fr : String) :
    parse_api_response (finishReasonOnlyResponse fr)
      = .error (.apiError ("Primary candidate in API response is missing 'content' or 'parts'. Response: "
          ++ json_dumps (finishReasonOnlyResponse fr)))
    ∧ (parse_api_response_run (finishReasonOnlyResponse fr)).2 = [] :=
  ⟨rfl, rfl⟩

/-- C4 counterexample: the two-part "Hello, " / "world." response yields
"Hello, \nworld." — the parts are joined with a newline, not plainly
concatenated — so the claimed result "Hello, world." is wrong (no
artifact is saved, as claimed). -/
theorem c4_counterexample_newline_joined :
    parse_api_response (twoTextResponse "Hello, " "world.") = .ok "Hello, \nworld."
    ∧ "Hello, \nworld." ≠ "Hello, world."
    ∧ (parse_api_response_run (twoTextResponse "Hello, " "world.")).2 = [] :=
  ⟨rfl, by decide, rfl⟩

/-- C4 amended: a raw response delivering its text in two non-empty parts
under a normal finish reason yields the two parts joined with a newline
separator and then stripped, and no saved artifact. -/
theorem c4_two_text_parts_joined_with_newline (s₁ s₂ : String)
    (h₁ : s₁ ≠ "") (h₂ : s₂ ≠ "") :
    parse_api_response (twoTextResponse s₁ s₂) = .ok (pyStrip (s₁ ++ "\n" ++ s₂))
    ∧ (parse_api_response_run (twoTextResponse s₁ s₂)).2 = [] := by
  obtain ⟨l₁⟩ := s₁
  obtain ⟨l₂⟩ := s₂
  cases l₁ with
  | nil => exact absurd rfl h₁
  | cons c₁ cs₁ =>
    cases l₂ with
    | nil => exact absurd rfl h₂
    | cons c₂ cs₂ => exact ⟨rfl, rfl⟩

/-- C4 witness: the amended theorem applied at the "Hello, " / "world."
input. -/
theorem c4_two_text_parts_joined_with_newline_witness :
    parse_api_response (twoTextResponse "Hello, " "world.") = .ok (pyStrip ("Hello, " ++ "\n" ++ "world."))
    ∧ (parse_api_response_run (twoTextResponse "Hello, " "world.")).2 = [] :=
  c4_two_text_parts_joined_with_newline "Hello, " "world." (by decide) (by decide)

/-- C6 counterexample: with general context "G", local context "L", one
file, prompt "P" and a non-empty history window, the composed prompt
contains no history section at all — the history turn's text ("HISTTEXT")
and the "user:" rendering the claim requires are absent; the history
travels as a separate conversation turn of the payload instead. -/
theorem c6_counterexample_no_history_section :
    compose_final_prompt (some "G") (some "L") [("f.txt", "FDATA")] "P" = c6ComposedPrompt
    ∧ (single_shot_request (some "G") (some "L") [("f.txt", "FDATA")] "P" none
         "gemini-1.5-flash" [exampleHistoryTurn] (.flt 8 (-1)) (.int 2048) (.flt 1 0) (.int 1)
         exampleFs).map payloadContents
        = .ok [exampleHistoryTurn,
               .obj [("role", .str "user"),
                     ("parts", .arr [.obj [("text", .str c6ComposedPrompt)]])]]
    ∧ strContains c6ComposedPrompt "HISTTEXT" = false
    ∧ strContains c6ComposedPrompt "user:" = false :=
  ⟨rfl, rfl, rfl, rfl⟩

/-- C6 amended: for every combination of general context, local context,
file contents and current input, the composed prompt equals one explicitly
ordered concatenation — general context, then local context, then the
file blocks, then the current input — with empty sections omitted
entirely; history is not part of the composed text (it is sent as
separate turns), and the current input carries the User Prompt label
exactly when a local context or file text precedes it. -/
theorem c6_compose_order (g l : Option String) (files : List (String × String))
    (prompt : String) :
    compose_final_prompt g l files prompt = composedExplicit g l files prompt := by
  unfold compose_final_prompt composedExplicit build_prompt_from_files
  rcases files with _ | ⟨f, fsr⟩
  · by_cases hg : ostrTruthy g = true <;> by_cases hl : ostrTruthy l = true <;>
      simp [hg, hl, String.append_assoc]
  · by_cases hg : ostrTruthy g = true <;> by_cases hl : ostrTruthy l = true <;>
      simp [hg, hl, String.append_assoc]

/-- C7: the transport client performs exactly one HTTP attempt — its
result depends only on the single POST made with the fixed 60-second
timeout — and classifies connectivity failures, timeouts, other request
exceptions and HTTP 4xx/5xx into typed APIError failures; for HTTP errors
the message carries the service-supplied error message when the body is
JSON of the \x7b"error": \x7b"message": ...\x7d\x7d shape, and falls back
to the raw body text when the body is not JSON or not of that shape. -/
theorem c7_transport_single_attempt_and_classification
    (model payload emsg reason text svcmsg : String) (status : Nat)
    (post post' : String → String → Nat → HttpOutcome)
    (hagree : post (api_url model) payload call_api_timeout
                = post' (api_url model) payload call_api_timeout)
    (h4 : 400 ≤ status) (h6 : status < 600) :
    call_api_timeout = 60
    ∧ GeminiAPIClient.call_api model payload post = GeminiAPIClient.call_api model payload post'
    ∧ GeminiAPIClient.call_api model payload (fun _ _ _ => .connErr emsg)
        = .error (.apiError ("Error connecting to the API. Please check your internet connection and the API endpoint: "
            ++ api_url model ++ ". Original error: " ++ emsg))
    ∧ GeminiAPIClient.call_api model payload (fun _ _ _ => .timedOut emsg)
        = .error (.apiError ("The request to the API timed out after 60 seconds. Original error: " ++ emsg))
    ∧ GeminiAPIClient.call_api model payload (fun _ _ _ => .otherErr emsg)
        = .error (.apiError ("An unexpected error occurred while calling the Gemini API: " ++ emsg))
    ∧ GeminiAPIClient.call_api model payload
        (fun _ _ _ => .response status reason text
           (some (.obj [("error", .obj [("message", .str svcmsg)])])))
        = .error (.apiError ("API request failed with HTTP status code " ++ toString status
            ++ " (" ++ reason ++ ")." ++ (" API Error Message: " ++ svcmsg)
            ++ ". Original error: " ++ http_error_str status reason (api_url model)))
    ∧ GeminiAPIClient.call_api model payload
        (fun _ _ _ => .response status reason text none)
        = .error (.apiError ("API request failed with HTTP status code " ++ toString status
            ++ " (" ++ reason ++ ")." ++ (" Full response: " ++ text)
            ++ ". Original error: " ++ http_error_str status reason (api_url model)))
    ∧ GeminiAPIClient.call_api model payload
        (fun _ _ _ => .response status reason text (some (.obj [("status", .str "oops")])))
        = .error (.apiError ("API request failed with HTTP status code " ++ toString status
            ++ " (" ++ reason ++ ")." ++ (" Full response: " ++ text)
            ++ ". Original error: " ++ http_error_str status reason (api_url model))) := by
  refine ⟨rfl, ?_, rfl, rfl, rfl, ?_, ?_, ?_⟩
  · unfold GeminiAPIClient.call_api
    rw [hagree]
  · simp only [GeminiAPIClient.call_api]
    rw [if_pos ⟨h4, h6⟩]
    simp [JValue.mem, JValue.index, JValue.lookupLast, pyStr, bind, Except.bind]
  · simp only [GeminiAPIClient.call_api]
    rw [if_pos ⟨h4, h6⟩]
  · simp only [GeminiAPIClient.call_api]
    rw [if_pos ⟨h4, h6⟩]
    simp [JValue.mem, JValue.index, JValue.lookupLast, bind, Except.bind]

/-- C7 witness: the classification at a concrete 404 response, with a
transport agreeing with itself on the single call made. -/
theorem c7_transport_witness :
    GeminiAPIClient.call_api "gemini-1.5-flash" "p"
      (fun _ _ _ => .response 404 "Not Found" "nf"
         (some (.obj [("error", .obj [("message", .str "model not found")])])))
      = .error (.apiError ("API request failed with HTTP status code " ++ toString 404
          ++ " (" ++ "Not Found" ++ ")." ++ (" API Error Message: " ++ "model not found")
          ++ ". Original error: " ++ http_error_str 404 "Not Found" (api_url "gemini-1.5-flash"))) :=
  (c7_transport_single_attempt_and_classification "gemini-1.5-flash" "p" "e" "Not Found"
    "nf" "model not found" 404 (fun _ _ _ => .connErr "e") (fun _ _ _ => .connErr "e")
    rfl (by decide) (by decide)).2.2.2.2.2.1

/-- C8: a chat turn whose API call or response interpretation fails leaves
the in-memory history exactly as it was and persists nothing, so the
history window length is unchanged; a successful turn appends exactly one
(user, model) record pair and persists the result. -/
theorem c8_failed_turn_leaves_history (hist : List PyTurn) (input : String)
    (r : Except PyErr JValue) :
    (∀ e, (do
        let json_response ← r
        parse_api_response json_response : Except PyErr String) = .error e →
      chat_turn hist input r = (hist, none)
      ∧ (chat_turn hist input r).1.length = hist.length)
    ∧ (∀ t, (do
        let json_response ← r
        parse_api_response json_response : Except PyErr String) = .ok t →
      chat_turn hist input r =
        (hist ++ [⟨"user", [JValue.obj [("text", .str input)]]⟩,
                  ⟨"model", [JValue.obj [("text", .str t)]]⟩],
         some (hist ++ [⟨"user", [JValue.obj [("text", .str input)]]⟩,
                        ⟨"model", [JValue.obj [("text", .str t)]]⟩]))) := by
  constructor
  · intro e he
    unfold chat_turn
    rw [he]
    exact ⟨rfl, rfl⟩
  · intro t ht
    unfold chat_turn
    rw [ht]

/-- C8 witness: a turn failing with a transport APIError leaves an empty
history empty and writes nothing. -/
theorem c8_failed_turn_leaves_history_witness :
    chat_turn [] "hello" (.error (.apiError "boom")) = ([], none) :=
  ((c8_failed_turn_leaves_history [] "hello" (.error (.apiError "boom"))).1
    (.apiError "boom") rfl).1

/-- C9: loading the persisted history returns the empty list when the
file is missing, when its content is empty, and when its content is not
valid JSON, instead of raising. -/
theorem c9_corrupt_history_loads_empty (s : String) (hbad : json_loads s = none) :
    load_local_history none = .arr []
    ∧ load_local_history (some "") = .arr []
    ∧ load_local_history (some s) = .arr [] := by
  refine ⟨rfl, rfl, ?_⟩
  by_cases hs : s = ""
  · subst hs; rfl
  · simp [load_local_history, hs, hbad]

/-- C9 witness: the theorem applied to a concrete non-JSON content. -/
theorem c9_corrupt_history_loads_empty_witness :
    json_loads "\x7b corrupted" = none
    ∧ (load_local_history none = .arr []
       ∧ load_local_history (some "") = .arr []
       ∧ load_local_history (some "\x7b corrupted") = .arr []) :=
  ⟨rfl, c9_corrupt_history_loads_empty "\x7b corrupted" rfl⟩

/-- The history part of the payload maps in-memory turns to themselves. -/
theorem historyPayload_map_toJ (turns : List PyTurn) :
    historyPayload (turns.map PyTurn.toJ) = .ok (turns.map PyTurn.toJ) := by
  induction turns with
  | nil => rfl
  | cons t ts ih =>
    simp [historyPayload, PyTurn.toJ, JValue.index, JValue.lookupLast, ih, bind, Except.bind]

/-- The multimodal payload construct_api_payload builds when an image is
supplied, the model is vision-capable, and the image file is readable. -/
theorem construct_multimodal_payload_eq
    (prompt p model : String) (bytes : List Nat) (history hp : List JValue)
    (t mot tp tk : JValue) (fs : String → Option (List Nat))
    (himg : p ≠ "") (hm : SUPPORTED_MULTIMODAL_MODELS.contains model = true)
    (hfs : fs p = some bytes) (hh : historyPayload history = .ok hp) :
    construct_api_payload_value prompt t mot tp tk (some p) model history none fs
      = .ok (.obj [
          ("contents", .arr (hp ++ [JValue.obj [("role", .str "user"),
            ("parts", .arr [mkTextPart prompt, mkImagePart bytes])]])),
          ("generationConfig", mkGenerationConfig t tp tk mot),
          ("safetySettings", safetySettings)]) := by
  have hp' : ostrTruthy (some p) = true := by simp [ostrTruthy, himg]
  simp [construct_api_payload_value, ostrTruthy, hh, hm, hfs, hp',
        encode_image_to_base64, bind, Except.bind, mkTextPart, mkImagePart,
        mkGenerationConfig]
  refine ⟨himg, ?_⟩
  simpa using hm

/-- C3 counterexample: for prompt "hi", an input image and the default
vision model, the current turn's parts are [text part, image part] — the
text part comes first, and the two parts differ, so the claimed order
[image part, text part] is wrong. -/
theorem c3_counterexample_text_first :
    (construct_api_payload_value "hi" (.flt 8 (-1)) (.int 2048) (.flt 1 0) (.int 1)
       (some "img.png") DEFAULT_VISION_MODEL [] none exampleFs).map
      (fun payload => turnPartsList (currentTurn payload))
      = .ok [examplePromptPart, exampleImagePart]
    ∧ examplePromptPart ≠ exampleImagePart
    ∧ [examplePromptPart, exampleImagePart] ≠ [exampleImagePart, examplePromptPart] := by
  refine ⟨rfl, ?_, ?_⟩
  · simp [examplePromptPart, exampleImagePart]
  · simp [examplePromptPart, exampleImagePart]

/-- C3 amended: for every request built with a text prompt, a supplied
readable input image and a vision-capable model, the current user turn's
content parts are exactly [text part, binary image part] in that order —
the text part precedes the image part. -/
theorem c3_text_part_precedes_image_part
    (prompt p model : String) (bytes : List Nat) (history hp : List JValue)
    (t mot tp tk : JValue) (fs : String → Option (List Nat))
    (himg : p ≠ "") (hm : SUPPORTED_MULTIMODAL_MODELS.contains model = true)
    (hfs : fs p = some bytes) (hh : historyPayload history = .ok hp) :
    (construct_api_payload_value prompt t mot tp tk (some p) model history none fs).map
      (fun payload => turnPartsList (currentTurn payload))
      = .ok [mkTextPart prompt, mkImagePart bytes] := by
  rw [construct_multimodal_payload_eq prompt p model bytes history hp t mot tp tk fs
      himg hm hfs hh]
  simp [Except.map, currentTurn, payloadContents, turnPartsList, jLookup,
        JValue.lookupLast, List.getLastD_concat]

/-- C3 witness: the amended theorem at prompt "hi", image img.png and the
default vision model. -/
theorem c3_text_part_precedes_image_part_witness :
    (construct_api_payload_value "hi" (.flt 8 (-1)) (.int 2048) (.flt 1 0) (.int 1)
       (some "img.png") DEFAULT_VISION_MODEL [] none exampleFs).map
      (fun payload => turnPartsList (currentTurn payload))
      = .ok [mkTextPart "hi", mkImagePart [1, 2, 3]] :=
  c3_text_part_precedes_image_part "hi" "img.png" DEFAULT_VISION_MODEL [1, 2, 3] [] []
    (.flt 8 (-1)) (.int 2048) (.flt 1 0) (.int 1) exampleFs
    (by decide) (by decide) rfl rfl

/-- C5: for every model, building a single-shot request with a readable
input image never silently drops the image: the emitted payload's current
turn always carries the inline image part, and either the model is kept
unchanged or the substitution to the default vision model is recorded
(the warning flag of select_model_for_query). -/
theorem c5_image_never_silently_dropped
    (model prompt p : String) (gctx lctx : Option String)
    (files : List (String × String)) (bytes : List Nat)
    (history hp : List JValue) (t mot tp tk : JValue)
    (fs : String → Option (List Nat))
    (himg : p ≠ "") (hfs : fs p = some bytes)
    (hh : historyPayload (history_window history) = .ok hp) :
    ∃ payload,
      single_shot_request gctx lctx files prompt (some p) model history t mot tp tk fs
        = .ok payload
      ∧ turnHasInlineImage (currentTurn payload) = true
      ∧ ((select_model_for_query model (some p)).1 = model
          ∨ (select_model_for_query model (some p)).2 = true) := by
  have hp' : ostrTruthy (some p) = true := by simp [ostrTruthy, himg]
  by_cases hm : SUPPORTED_MULTIMODAL_MODELS.contains model = true
  · have hmem : model ∈ SUPPORTED_MULTIMODAL_MODELS := by simpa using hm
    have hsel1 : (select_model_for_query model (some p)).1 = model := by
      simp [select_model_for_query, hp', hmem]
    refine ⟨.obj [
        ("contents", .arr (hp ++ [JValue.obj [("role", .str "user"),
          ("parts", .arr [mkTextPart (compose_final_prompt gctx lctx files prompt),
                          mkImagePart bytes])]])),
        ("generationConfig", mkGenerationConfig t tp tk mot),
        ("safetySettings", safetySettings)], ?_, ?_, Or.inl hsel1⟩
    · unfold single_shot_request
      rw [hsel1]
      exact construct_multimodal_payload_eq _ p model bytes _ hp t mot tp tk fs himg hm hfs hh
    · simp [turnHasInlineImage, currentTurn, payloadContents, turnPartsList, jLookup,
            JValue.lookupLast, List.getLastD_concat, mkImagePart, mkTextPart]
  · have hnmem : model ∉ SUPPORTED_MULTIMODAL_MODELS := by simpa using hm
    have hsel1 : (select_model_for_query model (some p)).1 = DEFAULT_VISION_MODEL := by
      simp [select_model_for_query, hp', hnmem]
    have hsel2 : (select_model_for_query model (some p)).2 = true := by
      simp [select_model_for_query, hp', hnmem]
    refine ⟨.obj [
        ("contents", .arr (hp ++ [JValue.obj [("role", .str "user"),
          ("parts", .arr [mkTextPart (compose_final_prompt gctx lctx files prompt),
                          mkImagePart bytes])]])),
        ("generationConfig", mkGenerationConfig t tp tk mot),
        ("safetySettings", safetySettings)], ?_, ?_, Or.inr hsel2⟩
    · unfold single_shot_request
      rw [hsel1]
      exact construct_multimodal_payload_eq _ p DEFAULT_VISION_MODEL bytes _ hp t mot tp tk fs
        himg (by decide) hfs hh
    · simp [turnHasInlineImage, currentTurn, payloadContents, turnPartsList, jLookup,
            JValue.lookupLast, List.getLastD_concat, mkImagePart, mkTextPart]

/-- C5 witness: a vision-incapable model ("gemini-1.0-pro") with an input
image: the request carries the image and the substitution is recorded. -/
theorem c5_image_never_silently_dropped_witness :
    ∃ payload,
      single_shot_request none none [] "describe" (some "img.png") "gemini-1.0-pro" []
        (.flt 8 (-1)) (.int 2048) (.flt 1 0) (.int 1) exampleFs
        = .ok payload
      ∧ turnHasInlineImage (currentTurn payload) = true
      ∧ ((select_model_for_query "gemini-1.0-pro" (some "img.png")).1 = "gemini-1.0-pro"
          ∨ (select_model_for_query "gemini-1.0-pro" (some "img.png")).2 = true) :=
  c5_image_never_silently_dropped "gemini-1.0-pro" "describe" "img.png" none none []
    [1, 2, 3] [] [] (.flt 8 (-1)) (.int 2048) (.flt 1 0) (.int 1) exampleFs
    (by decide) rfl rfl

/-- Extracting the turn list from the text/multimodal payload shape. -/
theorem payloadContents_mk (contents : List JValue) (gcfg : JValue) :
    payloadContents (.obj [("contents", .arr contents), ("generationConfig", gcfg),
                           ("safetySettings", safetySettings)]) = contents := by
  simp [payloadContents, jLookup, JValue.lookupLast]

/-- The parts list of a user turn object. -/
theorem turnPartsList_user (parts : List JValue) :
    turnPartsList (.obj [("role", .str "user"), ("parts", .arr parts)]) = parts := by
  simp [turnPartsList, jLookup, JValue.lookupLast]

/-- The parts list of a history turn in payload form. -/
theorem turnPartsList_toJ (t : PyTurn) : turnPartsList (PyTurn.toJ t) = t.parts := by
  simp [PyTurn.toJ, turnPartsList, jLookup, JValue.lookupLast]

/-- C10: for every prompt (including the empty one) and every history
whose turns all have non-empty parts lists, every turn of a successfully
constructed payload has a non-empty parts list; in particular an empty
prompt with no input image yields a current turn whose single text part
holds one space. -/
theorem c10_turn_parts_nonempty
    (prompt : String) (t mot tp tk : JValue) (image_path : Option String)
    (model : String) (turns : List PyTurn) (gen : Option String)
    (fs : String → Option (List Nat)) (payload : JValue)
    (hok : construct_api_payload_value prompt t mot tp tk image_path model
             (turns.map PyTurn.toJ) gen fs = .ok payload)
    (hne : ∀ turn ∈ turns, turn.parts ≠ []) :
    (∀ turn ∈ payloadContents payload, turnPartsList turn ≠ [])
    ∧ (prompt = "" → image_path = none → gen = none →
        turnPartsList (currentTurn payload) = [JValue.obj [("text", JValue.str " ")]]) := by
  rw [construct_api_payload_value] at hok
  by_cases hg : (ostrTruthy gen && SUPPORTED_IMAGE_GENERATION_MODELS.contains model) = true
  · rw [if_pos hg] at hok
    cases hok
    constructor
    · intro turn ht
      simp [imageGenerationPayload, payloadContents, jLookup, JValue.lookupLast] at ht
      subst ht
      simp [turnPartsList, jLookup, JValue.lookupLast]
    · intro hpr hi hgen
      subst hgen
      simp [ostrTruthy] at hg
  · rw [if_neg hg] at hok
    rw [historyPayload_map_toJ] at hok
    simp only [bind, Except.bind] at hok
    by_cases hc : (ostrTruthy image_path && SUPPORTED_MULTIMODAL_MODELS.contains model) = true
    · rw [if_pos hc] at hok
      have himg : ostrTruthy image_path = true := (Bool.and_eq_true_iff.mp hc).1
      rcases image_path with _ | pth
      · simp [ostrTruthy] at himg
      · rcases hfp : fs pth with _ | bytes
        · simp only [encode_image_to_base64, hfp] at hok
          exact absurd hok (by simp)
        · simp only [encode_image_to_base64, hfp, Except.ok.injEq] at hok
          subst hok
          constructor
          · intro turn ht
            rw [payloadContents_mk] at ht
            rcases List.mem_append.mp ht with ht2 | ht2
            · rcases List.mem_map.mp ht2 with ⟨pt, hpt, rfl⟩
              rw [turnPartsList_toJ]
              exact hne pt hpt
            · rw [List.mem_singleton.mp ht2, turnPartsList_user]
              simp
          · intro hpr hi hgen
            exact absurd hi (by simp)
    · rw [if_neg hc] at hok
      simp only [Except.ok.injEq] at hok
      subst hok
      constructor
      · intro turn ht
        rw [payloadContents_mk] at ht
        rcases List.mem_append.mp ht with ht2 | ht2
        · rcases List.mem_map.mp ht2 with ⟨pt, hpt, rfl⟩
          rw [turnPartsList_toJ]
          exact hne pt hpt
        · rw [List.mem_singleton.mp ht2, turnPartsList_user]
          simp
      · intro hpr hi hgen
        subst hpr
        rw [currentTurn, payloadContents_mk, List.getLastD_concat, turnPartsList_user]
        rfl

/-- C10 witness: the empty prompt with no image and empty history yields
a current turn with the single one-space text part. -/
theorem c10_turn_parts_nonempty_witness :
    turnPartsList (currentTurn (.obj [
      ("contents", .arr [JValue.obj [("role", .str "user"),
        ("parts", .arr [JValue.obj [("text", JValue.str " ")]])]]),
      ("generationConfig", mkGenerationConfig (.flt 8 (-1)) (.flt 1 0) (.int 1) (.int 2048)),
      ("safetySettings", safetySettings)]))
      = [JValue.obj [("text", JValue.str " ")]] :=
  (c10_turn_parts_nonempty "" (.flt 8 (-1)) (.int 2048) (.flt 1 0) (.int 1)
    none "gemini-1.5-flash" [] none exampleFs _ rfl
    (by intro turn ht; cases ht)).2 rfl rfl rfl
